import Mathlib

/-!
Formal model of the autorest-ci worker (olydis/autorest-ci).

The repository contains a small family of TypeScript programs that poll
GitHub pull requests, classify them against their CI status, run a test
job, and publish results as commit statuses and blob-storage logs.  The
source ships several historical variants of the same program:

* `src/github.ts` — the `GitHubCiClient` used by the later variants;
* `src/unnamed/part_002` — the most evolved CI worker (classifier with a
  `headID`-keyed known-PR cache, comment-driven commands, blob logs,
  cancellation, a stall status on job errors);
* `src/app.ts` — three older variants concatenated (referred to below as
  appV1, appV2, appV3 in the order they appear in the file);
* `src/unnamed/part_001` — a variant between appV1 and part_002.

JavaScript strings are modelled as `List Char` (`Str`) where string
lemmas are needed, and as Lean `String` inside event traces.  Machine
timestamps (`Date.now()`, `updated_at`) are modelled as natural-number
milliseconds.
-/

/-- JavaScript strings, modelled as lists of characters. -/
abbrev Str := List Char

/-- Stringified JavaScript error values ("" + e). -/
abbrev Err := String

/-- GitHub commit-status states (`type State` in src/github.ts). -/
inductive CIState
  | success
  | pending
  | failure
deriving DecidableEq

/-- One commit status as parsed by `getPullRequestStatuses`
(src/github.ts lines 49-62): `updated_at`, `state`, `description`,
`target_url`. -/
structure Status where
  updatedAt : Nat
  state : CIState
  description : String
  url : String
deriving DecidableEq

/-- Pull-request snapshot as parsed by `parsePR` (src/github.ts lines
10-20). -/
structure PullRequest where
  updatedAt : Nat
  number : Nat
  title : String
  baseRef : String
  baseID : String
  headID : String
  headRepoUrl : String
deriving DecidableEq

/-- The pending-status reclamation timeout:
`const ciStatusTimeoutMs = 1000 * 60 * 5;` (5 minutes). -/
def ciStatusTimeoutMs : Nat := 1000 * 60 * 5

/-- The ownership fingerprint written in front of every description by
`GitHubCiClient`: `this.statusPrefix = ` the backtick template
`[${jobUid}] ` (src/github.ts line 39). -/
def fingerprint (jobUid : Str) : Str := "[".data ++ jobUid ++ "] ".data

/-- The `description` field of the status-creation request body built by
`GitHubCiClient.setPullRequestStatus` (src/github.ts line 67):
`if (description) body.description = (this.statusPrefix + description).slice(0, 140);`.
`none` means the field is left absent (empty description). -/
def sentDescription (jobUid description : Str) : Option Str :=
  if description = [] then none
  else some ((fingerprint jobUid ++ description).take 140)

/-- The `description` field built by the first app.ts variant
(src/app.ts line 72): `if (description) body.description = statusPrefix + description;`
— prefixed, but never truncated. -/
def appV1SentDescription (jobUid description : Str) : Option Str :=
  if description = [] then none
  else some (fingerprint jobUid ++ description)

/-- The `description` field built by the third app.ts variant
(src/app.ts line 495): `body.description = description;` — sent verbatim,
with no ownership fingerprint and no truncation. -/
def appV3SentDescription (description : Str) : Str := description

/-- A remotely stored status as the hosting service keeps it: at most one
per (commit, context); writing replaces the prior value. -/
structure RemoteStatus where
  state : CIState
  description : Option Str
  url : Option Str
deriving DecidableEq

/-- Remote status store for one commit: context name ↦ status. -/
abbrev StatusStore := Str → Option RemoteStatus

/-- Effect of `GitHubCiClient.setPullRequestStatus` on the remote store
(src/github.ts lines 63-70): the status under `body.context = ciIdentifier`
is replaced by the new state, the prefixed-and-truncated description, and
the optional url. -/
def setPullRequestStatusModel (jobUid ciIdentifier : Str) (store : StatusStore)
    (state : CIState) (description : Str) (url : Option Str) : StatusStore :=
  fun ctx =>
    if ctx = ciIdentifier then some ⟨state, sentDescription jobUid description, url⟩
    else store ctx

/-- `GitHubCiClient.getJobStatus` (src/github.ts lines 72-75): read the
combined status map at this worker ciIdentifier. -/
def getJobStatusModel (store : StatusStore) (ciIdentifier : Str) : Option RemoteStatus :=
  store ciIdentifier

/-! ## Poll-loop classifier (src/unnamed/part_002, main, lines 237-258) -/

/-- Classifier decision: skip the pull request this cycle, or run a job. -/
inductive Decision
  | skip
  | run
deriving DecidableEq

/-- Classifications logged by part_002 main: cache hit (`continue` at line
237), "fresh", "done", "looks active", "looks stuck". -/
inductive Classification
  | skipKnown
  | fresh
  | done
  | active
  | stuck
deriving DecidableEq

/-- The known-PR cache `knownPRs : { [prNumber: number]: PullRequest }`. -/
abbrev KnownPRs := Nat → Option PullRequest

/-- `knownPRs[pr.number] = pr` (part_002 lines 243, 248, 256). -/
def updateKnown (known : KnownPRs) (pr : PullRequest) : KnownPRs :=
  fun n => if n = pr.number then some pr else known n

/-- Status-based classification of part_002 main (lines 239-258), after
the cache check: no status → fresh; success or failure → done; pending
with `Date.now() - status.updatedAt.getTime() < ciStatusTimeoutMs` →
looks active; otherwise pending → looks stuck. -/
def classifyByStatus (st : Option Status) (now : Nat) : Classification :=
  match st with
  | none => Classification.fresh
  | some s =>
    match s.state with
    | CIState.success => Classification.done
    | CIState.failure => Classification.done
    | CIState.pending =>
      if now - s.updatedAt < ciStatusTimeoutMs then Classification.active
      else Classification.stuck

/-- Full classification including the cache check of part_002 line 237:
`if (knownPRs[pr.number] && knownPRs[pr.number].headID === pr.headID) continue;`. -/
def classificationOf (known : KnownPRs) (pr : PullRequest) (st : Option Status)
    (now : Nat) : Classification :=
  match known pr.number with
  | some cached =>
    if cached.headID = pr.headID then Classification.skipKnown
    else classifyByStatus st now
  | none => classifyByStatus st now

/-- Decision taken for each classification: fresh and stuck run a job
(part_002 lines 242, 255); the cache hit, done and active branches skip. -/
def decisionOf : Classification → Decision
  | Classification.skipKnown => Decision.skip
  | Classification.fresh => Decision.run
  | Classification.done => Decision.skip
  | Classification.active => Decision.skip
  | Classification.stuck => Decision.run

/-- Cache effect of each classification branch: fresh, done and stuck
store the snapshot (`knownPRs[pr.number] = pr`); the cache hit and the
looks-active branch leave the cache untouched. -/
def newKnown (known : KnownPRs) (pr : PullRequest) : Classification → KnownPRs
  | Classification.skipKnown => known
  | Classification.fresh => updateKnown known pr
  | Classification.done => updateKnown known pr
  | Classification.active => known
  | Classification.stuck => updateKnown known pr

/-- Result of one classifier step for one pull request. -/
structure ClassifierResult where
  classification : Classification
  decision : Decision
  known : KnownPRs

/-- One classifier step of part_002 main for one observed pull request:
the classification, the skip/run decision, and the updated known-PR
cache. -/
def classifierStep (known : KnownPRs) (pr : PullRequest) (st : Option Status)
    (now : Nat) : ClassifierResult :=
  ⟨classificationOf known pr st now,
   decisionOf (classificationOf known pr st now),
   newKnown known pr (classificationOf known pr st now)⟩

/-- Whether the part_002 cache check hits (line 237). -/
def cacheHit (known : KnownPRs) (pr : PullRequest) : Bool :=
  match known pr.number with
  | some cached => cached.headID = pr.headID
  | none => false

/-- Modelled from the claim: the decision table of spec section 4.1 in
the claim wording — cache match → skip; no status → run; success or
failure → skip; pending within the timeout window → skip; pending at or
past the timeout → run. -/
def specTableDecision (hit : Bool) (st : Option Status) (now : Nat) : Decision :=
  if hit then Decision.skip
  else
    match st with
    | none => Decision.run
    | some s =>
      match s.state with
      | CIState.success => Decision.skip
      | CIState.failure => Decision.skip
      | CIState.pending =>
        if now - s.updatedAt < ciStatusTimeoutMs then Decision.skip
        else Decision.run

/-! ## The first app.ts variant classifier and seen-PR check -/

/-- A JavaScript `Date` object: its time value plus an allocation
identity, because `===` on two `Date` objects compares identity, never
the time value. -/
structure DateObj where
  time : Nat
  oid : Nat
deriving DecidableEq

/-- JavaScript `===` on two Date objects: true iff same allocation. -/
def jsDateEq (a b : DateObj) : Bool := a.oid == b.oid

/-- Pull request as parsed by the first app.ts variant (`parsePR`,
src/app.ts lines 35-44); `updatedAt` is a `Date` object allocated fresh
at every parse. -/
structure PullRequestV1 where
  updatedAt : DateObj
  number : Nat
  title : String
  baseRef : String
  baseID : String
  headID : String
deriving DecidableEq

/-- The seen-PR check of the first app.ts variant (line 183):
`if (prs[pr.number] && prs[pr.number].updatedAt === pr.updatedAt) continue;`.
At line 181 `const prs = await getPullRequests();` shadows the outer
`prs` cache map, so the lookup indexes the freshly fetched ARRAY at
position `pr.number`, and the comparison is Date-object identity. -/
def appV1SeenCheck (fetched : List PullRequestV1) (pr : PullRequestV1) : Bool :=
  match fetched.get? pr.number with
  | none => false
  | some cached => jsDateEq cached.updatedAt pr.updatedAt

/-- Classifications of the first app.ts variant (lines 186-202): the
first branch (`!status || status.updatedAt < pr.updatedAt`) is logged as
"new"/"updated" and runs a job. -/
inductive ClassificationV1
  | updatedOrNew
  | done
  | active
  | stuck
deriving DecidableEq

/-- Status classification of the first app.ts variant (lines 186-202),
after the seen-PR check. -/
def classifyV1 (st : Option Status) (pr : PullRequestV1) (now : Nat) : ClassificationV1 :=
  match st with
  | none => ClassificationV1.updatedOrNew
  | some s =>
    if s.updatedAt < pr.updatedAt.time then ClassificationV1.updatedOrNew
    else
      match s.state with
      | CIState.success => ClassificationV1.done
      | CIState.failure => ClassificationV1.done
      | CIState.pending =>
        if now - s.updatedAt < ciStatusTimeoutMs then ClassificationV1.active
        else ClassificationV1.stuck

/-- Decision taken by the first app.ts variant for each classification. -/
def decisionV1 : ClassificationV1 → Decision
  | ClassificationV1.updatedOrNew => Decision.run
  | ClassificationV1.done => Decision.skip
  | ClassificationV1.active => Decision.skip
  | ClassificationV1.stuck => Decision.run

/-! ## Process runner (`runCommand`, src/unnamed/part_002 lines 51-66) -/

/-- One data event from the child process: a chunk arriving on stdout or
on stderr. -/
inductive Chunk
  | fromStdout (s : Str)
  | fromStderr (s : Str)
deriving DecidableEq

/-- Text of a chunk (`chunk.toString()`). -/
def chunkText : Chunk → Str
  | Chunk.fromStdout s => s
  | Chunk.fromStderr s => s

/-- `output += chunk.toString()` — both stream handlers append to the one
shared buffer. -/
def appendChunk (acc : Str) (c : Chunk) : Str := acc ++ chunkText c

/-- The buffer contents returned by the snapshot accessor `() => output`
after a given arrival-ordered list of chunks has been processed, starting
from `let output = ""`. -/
def outputAfter (chunks : List Chunk) : Str := chunks.foldl appendChunk []

/-- Events that can resolve the `runCommand` result promise: the exec
exit callback (`err => res(err || null)`), the synchronous spawn
exception (`catch (e) { res(e); }`), and — in the part_003 variant — a
cancellation (`cancel = () => { cp.kill(...); res(new Error("timeout")); }`). -/
inductive ResolveEvent
  | exited (err : Option Err)
  | spawnFailed (e : Err)
  | cancelled
deriving DecidableEq

/-- The value each event passes to the resolver. -/
def resolveValue : ResolveEvent → Option Err
  | ResolveEvent.exited err => err
  | ResolveEvent.spawnFailed e => some e
  | ResolveEvent.cancelled => some "Error: timeout"

/-- The self-replacing resolver
`let res = (e) => { r(e); res = () => {}; };`: the first call resolves
the promise, every later call hits the no-op replacement. The state is
`none` while unresolved and `some v` once resolved with `v`. -/
def resolveOnce (state : Option (Option Err)) (v : Option Err) : Option (Option Err) :=
  match state with
  | none => some v
  | some w => some w

/-- Feed one resolve event into the resolver state. -/
def settleStep (state : Option (Option Err)) (ev : ResolveEvent) : Option (Option Err) :=
  resolveOnce state (resolveValue ev)

/-- Final promise state after a sequence of resolve events. -/
def settleAll (events : List ResolveEvent) : Option (Option Err) :=
  events.foldl settleStep none

/-! ## Log-flush serialization (src/unnamed/part_002, runJob lines 154-161)

The code under model:

  let mutex = false;
  const feedbackTimer = setInterval(async () => {
    if (mutex) return; mutex = true; await sendFeedback(); mutex = false; }, 1000 * 5);
  const error = await resultPromise;
  clearInterval(feedbackTimer);
  while (mutex) await delay(100);
  await sendFeedback();

Node runs one cooperative event loop, so each code segment between two
awaits is atomic.  The atomic segments become the transitions below. -/

/-- Scheduler-visible state of the flush machinery of one runJob run. -/
structure FlushState where
  timerActive : Bool
  mutex : Bool
  tickFlushes : Nat
  finalPhase : Nat
deriving DecidableEq

/-- Atomic transitions of the flush machinery.  `tickFlushes` counts
timer-driven `sendFeedback` calls currently in flight; `finalPhase` is 0
while the command still runs, 1 after `clearInterval` while the
`while (mutex)` drain loop spins, 2 while the final `sendFeedback` is in
flight, 3 afterwards. -/
inductive FlushStep : FlushState → FlushState → Prop
  | tickStart (s : FlushState) (ht : s.timerActive = true) (hm : s.mutex = false) :
      FlushStep s ⟨s.timerActive, true, s.tickFlushes + 1, s.finalPhase⟩
  | tickSkip (s : FlushState) (ht : s.timerActive = true) (hm : s.mutex = true) :
      FlushStep s s
  | tickDone (s : FlushState) (hf : 0 < s.tickFlushes) :
      FlushStep s ⟨s.timerActive, false, s.tickFlushes - 1, s.finalPhase⟩
  | commandResolve (s : FlushState) (hp : s.finalPhase = 0) :
      FlushStep s ⟨false, s.mutex, s.tickFlushes, 1⟩
  | finalStart (s : FlushState) (hp : s.finalPhase = 1) (hm : s.mutex = false) :
      FlushStep s ⟨s.timerActive, s.mutex, s.tickFlushes, 2⟩
  | finalDone (s : FlushState) (hp : s.finalPhase = 2) :
      FlushStep s ⟨s.timerActive, s.mutex, s.tickFlushes, 3⟩

/-- Initial state: timer armed, mutex clear, nothing in flight, command
still running. -/
def flushInit : FlushState := ⟨true, false, 0, 0⟩

/-- States reachable from `flushInit` along `FlushStep` transitions. -/
inductive FlushReachable : FlushState → Prop
  | init : FlushReachable flushInit
  | step {s t : FlushState} : FlushReachable s → FlushStep s t → FlushReachable t

/-- Number of `sendFeedback` invocations executing concurrently. -/
def flushesInFlight (s : FlushState) : Nat :=
  s.tickFlushes + (if s.finalPhase = 2 then 1 else 0)

/-- Inductive invariant of the flush machinery: the mutex flag is set
exactly while a timer flush is in flight, at most one timer flush is in
flight, the timer stays armed exactly until the command resolves, and
the final flush only runs with no timer flush in flight. -/
def FlushInv (s : FlushState) : Prop :=
  s.mutex = decide (0 < s.tickFlushes) ∧
  s.tickFlushes ≤ 1 ∧
  s.timerActive = decide (s.finalPhase = 0) ∧
  (s.finalPhase = 2 → s.tickFlushes = 0)

/-! ## Job-executor traces

`runJob` of src/unnamed/part_002 (lines 71-192) and `runJob` of the
first app.ts variant (lines 110-168) are embedded as functions from an
environment — the outcome of every awaited external call, in program
order — to the ordered list of externally visible events plus the
job outcome (`Except.error e` = the body threw `e`). -/

/-- Externally visible events of one runJob execution, in program order:
status writes (state, raw description as passed to
`setPullRequestStatus`, optional target url), creation of the append
blob, a log append, and the two fencing reads with their results. -/
inductive Event
  | statusWrite (state : CIState) (description : String) (url : Option String)
  | logCreate
  | logAppend (text : String)
  | checkOwns (result : Bool)
  | checkUpdated (result : Bool)
deriving DecidableEq

/-- `s.slice(n)` on a JavaScript string. -/
def strDrop (s : String) (n : Nat) : String := String.mk (s.data.drop n)

/-- `s.slice(0, n)` on a JavaScript string. -/
def strTake (s : String) (n : Nat) : String := String.mk (s.data.take n)

/-- `pushFinal` text (part_002 line 110):
the template `</pre><style>body { background: (#cfc or #fcc) }</style>`
(braces written as \x7b/\x7d). -/
def pushFinalText (success : Bool) : String :=
  if success then "</pre><style>body \x7b background: #cfc \x7d</style>"
  else "</pre><style>body \x7b background: #fcc \x7d</style>"

/-- One firing of the feedback timer (part_002 lines 137-153): the
`pollOutput()` snapshot it sees, and whether its blob append succeeded
(a failed append is swallowed and leaves `lastLength` unchanged). -/
structure Tick where
  output : String
  appendOk : Bool
deriving DecidableEq

/-- Log-append events produced by a run of feedback-timer firings,
threading `lastLength` exactly as `sendFeedback` does: append
`output.slice(lastLength)`, and set `lastLength = output.length` only
when the append succeeded. -/
def tickFold (ticks : List Tick) (lastLen : Nat) : List Event × Nat :=
  match ticks with
  | [] => ([], lastLen)
  | t :: ts =>
    if t.appendOk then
      (Event.logAppend (strDrop t.output lastLen) :: (tickFold ts t.output.length).1,
       (tickFold ts t.output.length).2)
    else tickFold ts lastLen

/-- Outcomes of every awaited call of part_002 runJob, in program order.
A `some e` / `Except.error e` field means that call threw `e`. -/
structure Env2 where
  mkdirR : Option Err
  containerR : Option Err
  blobR : Option Err
  fetchStatusR : Option Err
  gitInitR : Option Err
  gitPullR : Option Err
  gitRemoteR : Option Err
  gitFetchR : Option Err
  gitMergeR : Option Err
  owns1R : Except Err Bool
  runStatusR : Option Err
  ticks : List Tick
  finalTick : Tick
  commandErr : Option Err
  owns2R : Except Err Bool
  pushFinalOk : Bool
  finalStatusR : Option Err
  stallOk : Bool
  url : String
  now1 : Nat
  now2 : Nat
  now3 : Nat

/-- Success description (part_002 line 182):
`Success (git took ${(t2 - t1) / 1000 | 0}s, tests took ${(t3 - t2) / 1000 | 0}s)`. -/
def successDescOf (now1 now2 now3 : Nat) : String :=
  "Success (git took " ++ toString ((now2 - now1) / 1000) ++ "s, tests took " ++
    toString ((now3 - now2) / 1000) ++ "s)"

/-- Trace prefix after blob creation (part_002 lines 86-101). -/
def ev1 : List Event := [Event.logCreate]

/-- Trace prefix after the pending/"Fetching" write (line 114). -/
def ev2 : List Event := ev1 ++ [Event.statusWrite CIState.pending "Fetching" none]

/-- Trace prefix after the first passing ownership check (line 129). -/
def ev3 : List Event := ev2 ++ [Event.checkOwns true]

/-- Trace prefix after the pending/"Running test job" write (line 133),
which carries the auto-refresh log url. -/
def ev4 (env : Env2) : List Event :=
  ev3 ++ [Event.statusWrite CIState.pending "Running test job" (some (env.url ++ "?autorefresh"))]

/-- Trace prefix after the feedback-timer firings. -/
def ev5 (env : Env2) : List Event := ev4 env ++ (tickFold env.ticks 0).1

/-- Trace prefix after the final `sendFeedback` (line 161). -/
def ev6 (env : Env2) : List Event :=
  ev5 env ++
    (if env.finalTick.appendOk then
      [Event.logAppend (strDrop env.finalTick.output (tickFold env.ticks 0).2)]
     else [])

/-- Trace prefix after the second passing ownership check (line 164). -/
def ev7 (env : Env2) : List Event := ev6 env ++ [Event.checkOwns true]

/-- The fire-and-forget `pushFinal` append (lines 169, 181). -/
def pushFinalEvs (env : Env2) (success : Bool) : List Event :=
  if env.pushFinalOk then [Event.logAppend (pushFinalText success)] else []

/-- The body of part_002 runJob (the `try` block, lines 72-183) as a
trace plus outcome.  An `Except.ok` outcome covers both normal
completion and the two silent aborts at the failed ownership checks
(lines 129 and 164, which `return`). -/
def runJob2Body (env : Env2) : List Event × Except Err Unit :=
  match env.mkdirR with
  | some e => ([], Except.error e)
  | none =>
  match env.containerR with
  | some e => ([], Except.error e)
  | none =>
  match env.blobR with
  | some e => ([], Except.error e)
  | none =>
  match env.fetchStatusR with
  | some e => (ev1, Except.error e)
  | none =>
  match env.gitInitR with
  | some e => (ev2, Except.error e)
  | none =>
  match env.gitPullR with
  | some e => (ev2, Except.error e)
  | none =>
  match env.gitRemoteR with
  | some e => (ev2, Except.error e)
  | none =>
  match env.gitFetchR with
  | some e => (ev2, Except.error e)
  | none =>
  match env.gitMergeR with
  | some e => (ev2, Except.error e)
  | none =>
  match env.owns1R with
  | Except.error e => (ev2, Except.error e)
  | Except.ok false => (ev2 ++ [Event.checkOwns false], Except.ok ())
  | Except.ok true =>
  match env.runStatusR with
  | some e => (ev3, Except.error e)
  | none =>
  match env.owns2R with
  | Except.error e => (ev6 env, Except.error e)
  | Except.ok false => (ev6 env ++ [Event.checkOwns false], Except.ok ())
  | Except.ok true =>
  match env.commandErr with
  | some cmdErr =>
    match env.finalStatusR with
    | some e => (ev7 env ++ pushFinalEvs env false, Except.error e)
    | none =>
      (ev7 env ++ pushFinalEvs env false ++
        [Event.statusWrite CIState.failure cmdErr (some env.url)], Except.ok ())
  | none =>
    match env.finalStatusR with
    | some e => (ev7 env ++ pushFinalEvs env true, Except.error e)
    | none =>
      (ev7 env ++ pushFinalEvs env true ++
        [Event.statusWrite CIState.success (successDescOf env.now1 env.now2 env.now3)
          (some env.url)], Except.ok ())

/-- part_002 runJob including its catch block (lines 184-191): on a
thrown error `e`, try one pending/"Stall. Job error: " + e write, swallow
a failure of that write, and return normally. -/
def runJob2Full (env : Env2) : List Event × Except Err Unit :=
  match runJob2Body env with
  | (evs, Except.ok _) => (evs, Except.ok ())
  | (evs, Except.error e) =>
    (evs ++
      (if env.stallOk then
        [Event.statusWrite CIState.pending ("Stall. Job error: " ++ e) none]
       else []), Except.ok ())

/-! ## First app.ts variant runJob (src/app.ts lines 110-168) -/

/-- Outcomes of every awaited call of the first app.ts variant runJob, in
program order. -/
structure EnvV1 where
  mkdirR : Option Err
  fetchStatusR : Option Err
  cloneR : Option Err
  checkoutR : Option Err
  mergeR : Option Err
  upd1R : Except Err Bool
  owns1R : Except Err Bool
  runStatusR : Option Err
  commandErr : Option Err
  upd2R : Except Err Bool
  owns2R : Except Err Bool
  succStatusR : Option Err
  upd3R : Except Err Bool
  stallStatusR : Option Err
  failStatusOk : Bool
  now1 : Nat
  now2 : Nat
  now3 : Nat

/-- Trace prefix after the pending/"Fetching" write (app.ts line 118). -/
def w1 : List Event := [Event.statusWrite CIState.pending "Fetching" none]

/-- Trace prefix after the first passing update check (line 129). -/
def w2 : List Event := w1 ++ [Event.checkUpdated false]

/-- Trace prefix after the first passing ownership check (line 130). -/
def w3 : List Event := w2 ++ [Event.checkOwns true]

/-- Trace prefix after the pending/"Running test job" write (line 134). -/
def w4 : List Event := w3 ++ [Event.statusWrite CIState.pending "Running test job" none]

/-- Trace prefix after the second passing update check (line 149). -/
def w5 : List Event := w4 ++ [Event.checkUpdated false]

/-- Trace prefix after the second passing ownership check (line 150). -/
def w6 : List Event := w5 ++ [Event.checkOwns true]

/-- The body of the first app.ts variant runJob (the `try` block, lines
111-161).  Note `sendFeedback` there is empty (lines 137-138), so the
feedback timer produces no events; `if (error) throw error` at line 153
turns a command failure into a thrown error.  Every fencing read that
returns records a `checkUpdated`/`checkOwns` event with its boolean
result — including the post-success `wasUpdated` recheck of line 161,
whichever way it comes back; a fencing read that throws records no
event (it yields no boolean). -/
def runJobV1Body (env : EnvV1) : List Event × Except Err Unit :=
  match env.mkdirR with
  | some e => ([], Except.error e)
  | none =>
  match env.fetchStatusR with
  | some e => ([], Except.error e)
  | none =>
  match env.cloneR with
  | some e => (w1, Except.error e)
  | none =>
  match env.checkoutR with
  | some e => (w1, Except.error e)
  | none =>
  match env.mergeR with
  | some e => (w1, Except.error e)
  | none =>
  match env.upd1R with
  | Except.error e => (w1, Except.error e)
  | Except.ok true => (w1 ++ [Event.checkUpdated true], Except.ok ())
  | Except.ok false =>
  match env.owns1R with
  | Except.error e => (w2, Except.error e)
  | Except.ok false => (w2 ++ [Event.checkOwns false], Except.ok ())
  | Except.ok true =>
  match env.runStatusR with
  | some e => (w3, Except.error e)
  | none =>
  match env.upd2R with
  | Except.error e => (w4, Except.error e)
  | Except.ok true => (w4 ++ [Event.checkUpdated true], Except.ok ())
  | Except.ok false =>
  match env.owns2R with
  | Except.error e => (w5, Except.error e)
  | Except.ok false => (w5 ++ [Event.checkOwns false], Except.ok ())
  | Except.ok true =>
  match env.commandErr with
  | some cmdErr => (w6, Except.error cmdErr)
  | none =>
  match env.succStatusR with
  | some e => (w6, Except.error e)
  | none =>
  match env.upd3R with
  | Except.error e =>
    (w6 ++ [Event.statusWrite CIState.success (successDescOf env.now1 env.now2 env.now3) none],
     Except.error e)
  | Except.ok false =>
    (w6 ++ [Event.statusWrite CIState.success (successDescOf env.now1 env.now2 env.now3) none,
            Event.checkUpdated false],
     Except.ok ())
  | Except.ok true =>
  match env.stallStatusR with
  | some e =>
    (w6 ++ [Event.statusWrite CIState.success (successDescOf env.now1 env.now2 env.now3) none,
            Event.checkUpdated true], Except.error e)
  | none =>
    (w6 ++ [Event.statusWrite CIState.success (successDescOf env.now1 env.now2 env.now3) none,
            Event.checkUpdated true,
            Event.statusWrite CIState.pending "Stall. Just set status of an updated PR." none],
     Except.ok ())

/-- The first app.ts variant runJob including its catch block (lines
162-167): on a thrown error `e`, try one FAILURE status write carrying
`("" + e).slice(0, 1000)`, swallow a failure of that write, then
`throw e` — the error is rethrown to the poll loop. -/
def runJobV1Full (env : EnvV1) : List Event × Except Err Unit :=
  match runJobV1Body env with
  | (evs, Except.ok _) => (evs, Except.ok ())
  | (evs, Except.error e) =>
    (evs ++
      (if env.failStatusOk then
        [Event.statusWrite CIState.failure (strTake e 1000) none]
       else []), Except.error e)

/-- Whether a trace contains a `wasUpdated` fencing read. -/
def containsCheckUpdated : List Event → Bool
  | [] => false
  | Event.checkUpdated _ :: _ => true
  | _ :: rest => containsCheckUpdated rest

/-! ## Concrete inputs used by counterexamples and witnesses -/

/-- A success status whose `updated_at` (5) predates the pull-request
snapshot `updated_at` (10). -/
def stOldSuccess : Status := ⟨5, CIState.success, "", ""⟩

/-- A pending status written at time 0. -/
def stPending0 : Status := ⟨0, CIState.pending, "", ""⟩

/-- Pull request #42 as seen by the first app.ts variant in one poll
cycle (Date allocation id 1). -/
def prV1a : PullRequestV1 := ⟨⟨10, 1⟩, 42, "t", "master", "b", "h"⟩

/-- The identical snapshot of pull request #42 re-fetched in the next
poll cycle: same time value, fresh Date allocation (id 2). -/
def prV1b : PullRequestV1 := ⟨⟨10, 2⟩, 42, "t", "master", "b", "h"⟩

/-- A pull-request snapshot for the part_002 classifier. -/
def prEx : PullRequest := ⟨10, 42, "t", "master", "b", "h", "u"⟩

/-- The empty known-PR cache. -/
def knownEmpty : KnownPRs := fun _ => none

/-- part_002 environment where every call succeeds, the ownership checks
pass, the command exits 0, and no feedback tick fires: the job publishes
success and ends. -/
def envC7 : Env2 :=
  { mkdirR := none, containerR := none, blobR := none, fetchStatusR := none,
    gitInitR := none, gitPullR := none, gitRemoteR := none, gitFetchR := none,
    gitMergeR := none, owns1R := Except.ok true, runStatusR := none, ticks := [],
    finalTick := ⟨"out", false⟩, commandErr := none, owns2R := Except.ok true,
    pushFinalOk := true, finalStatusR := none, stallOk := true, url := "http://log",
    now1 := 0, now2 := 5000, now3 := 65000 }

/-- part_002 environment whose first ownership check returns false. -/
def envOwnsFalse : Env2 :=
  { mkdirR := none, containerR := none, blobR := none, fetchStatusR := none,
    gitInitR := none, gitPullR := none, gitRemoteR := none, gitFetchR := none,
    gitMergeR := none, owns1R := Except.ok false, runStatusR := none, ticks := [],
    finalTick := ⟨"out", false⟩, commandErr := none, owns2R := Except.ok true,
    pushFinalOk := true, finalStatusR := none, stallOk := true, url := "http://log",
    now1 := 0, now2 := 5000, now3 := 65000 }

/-- part_002 environment where the very first call (mkdir) throws. -/
def envMkdirBoom : Env2 :=
  { mkdirR := some "boom", containerR := none, blobR := none, fetchStatusR := none,
    gitInitR := none, gitPullR := none, gitRemoteR := none, gitFetchR := none,
    gitMergeR := none, owns1R := Except.ok true, runStatusR := none, ticks := [],
    finalTick := ⟨"out", false⟩, commandErr := none, owns2R := Except.ok true,
    pushFinalOk := true, finalStatusR := none, stallOk := true, url := "http://log",
    now1 := 0, now2 := 5000, now3 := 65000 }

/-- First app.ts variant environment where the test command fails and
everything else succeeds. -/
def envV1Fail : EnvV1 :=
  { mkdirR := none, fetchStatusR := none, cloneR := none, checkoutR := none,
    mergeR := none, upd1R := Except.ok false, owns1R := Except.ok true,
    runStatusR := none, commandErr := some "Error: Command failed: npm install && npm test",
    upd2R := Except.ok false, owns2R := Except.ok true, succStatusR := none,
    upd3R := Except.ok false, stallStatusR := none, failStatusOk := true,
    now1 := 0, now2 := 0, now3 := 0 }

/-- First app.ts variant environment where the job succeeds but the
final update check finds the pull request changed. -/
def envV1Stall : EnvV1 :=
  { mkdirR := none, fetchStatusR := none, cloneR := none, checkoutR := none,
    mergeR := none, upd1R := Except.ok false, owns1R := Except.ok true,
    runStatusR := none, commandErr := none,
    upd2R := Except.ok false, owns2R := Except.ok true, succStatusR := none,
    upd3R := Except.ok true, stallStatusR := none, failStatusOk := true,
    now1 := 0, now2 := 2000, now3 := 9000 }

/-- First app.ts variant environment where the job succeeds and the
final update check finds the pull request unchanged. -/
def envV1NoChange : EnvV1 :=
  { mkdirR := none, fetchStatusR := none, cloneR := none, checkoutR := none,
    mergeR := none, upd1R := Except.ok false, owns1R := Except.ok true,
    runStatusR := none, commandErr := none,
    upd2R := Except.ok false, owns2R := Except.ok true, succStatusR := none,
    upd3R := Except.ok false, stallStatusR := none, failStatusOk := true,
    now1 := 0, now2 := 2000, now3 := 9000 }

/-! ## Theorems -/

/-- Folding chunk appends from any accumulator splits off the
accumulator. -/
theorem foldl_appendChunk (l : List Chunk) :
    ∀ acc : Str, l.foldl appendChunk acc = acc ++ outputAfter l := by
  induction l with
  | nil => intro acc; simp [outputAfter]
  | cons c cs ih =>
    intro acc
    simp only [List.foldl_cons, outputAfter]
    rw [ih, ih (appendChunk [] c)]
    simp [appendChunk, List.append_assoc]

/-- C9: the Process Runner output buffer is append-only — for one
execution of `runCommand`, if the chunk list observed by an earlier
snapshot-accessor call is a prefix of the chunk list observed by a later
call, the earlier buffer contents are a prefix of the later ones
(`output += chunk.toString()` only ever appends,
src/unnamed/part_002 lines 51-66). -/
theorem c9_output_append_only (c1 c2 : List Chunk) (h : c1 <+: c2) :
    outputAfter c1 <+: outputAfter c2 := by
  obtain ⟨t, rfl⟩ := h
  show outputAfter c1 <+: (c1 ++ t).foldl appendChunk []
  rw [List.foldl_append, foldl_appendChunk t (c1.foldl appendChunk [])]
  exact List.prefix_append _ _

/-- C9 witness: a stdout chunk followed by a stderr chunk — the snapshot
after the first chunk is a prefix of the snapshot after both. -/
theorem c9_witness :
    outputAfter [Chunk.fromStdout "np".data] <+:
      outputAfter [Chunk.fromStdout "np".data, Chunk.fromStderr "m err".data] :=
  c9_output_append_only _ _ ⟨[Chunk.fromStderr "m err".data], rfl⟩

/-- A resolved resolver state absorbs every further event. -/
theorem settleAll_absorb (evs : List ResolveEvent) :
    ∀ w : Option Err, evs.foldl settleStep (some w) = some w := by
  induction evs with
  | nil => intro w; rfl
  | cons e es ih => intro w; simpa [settleStep, resolveOnce] using ih w

/-- C10: the `runCommand` result promise settles exactly once — for any
nonempty sequence of resolving events (process exit, spawn exception,
cancellation), the settled value is the first event's value, and feeding
an event into an already-resolved resolver leaves it unchanged (the
resolver replaces itself with a no-op on first use,
src/app.ts lines 96-108 and src/unnamed/part_003 lines 36-51). -/
theorem c10_promise_settles_once :
    (∀ (ev : ResolveEvent) (rest : List ResolveEvent),
      settleAll (ev :: rest) = some (resolveValue ev)) ∧
    (∀ (w : Option Err) (v : Option Err), resolveOnce (some w) v = some w) := by
  constructor
  · intro ev rest
    show (ev :: rest).foldl settleStep none = some (resolveValue ev)
    simpa [settleStep, resolveOnce] using settleAll_absorb rest (resolveValue ev)
  · intro w v; rfl

/-- C3 counterexample: the claim says every description sent by a
`setPullRequestStatus` of this system starts with the ownership
fingerprint, but the third app.ts variant (src/app.ts lines 491-498)
sends the description verbatim — `"Fetching"` goes out without any
fingerprint (shown here against the fingerprint of worker uid
`abc12`; no uid can make `"Fetching"` carry a fingerprint since the
function is the identity). -/
theorem c3_counterexample :
    appV3SentDescription ("Fetching".data) = "Fetching".data ∧
    ¬ (fingerprint ("abc12".data) <+: appV3SentDescription ("Fetching".data)) := by
  constructor
  · rfl
  · decide

/-- C3 amended: every nonempty description sent through
`GitHubCiClient.setPullRequestStatus` (src/github.ts lines 63-70) is the
fingerprint-prefixed description truncated to 140 characters, and —
whenever the fingerprint itself fits into the 140-character ceiling —
that sent description starts with the fingerprint. -/
theorem c3_amended_fingerprinted (jobUid description : Str)
    (hd : description ≠ []) (hlen : (fingerprint jobUid).length ≤ 140) :
    sentDescription jobUid description =
      some ((fingerprint jobUid ++ description).take 140) ∧
    fingerprint jobUid <+: (fingerprint jobUid ++ description).take 140 := by
  constructor
  · simp [sentDescription, hd]
  · rw [List.take_append_eq_append_take, List.take_of_length_le hlen]
    exact List.prefix_append _ _

/-- C3 witness: the fingerprint of worker uid `CIabcde` is a prefix of
the sent description for input `Fetching`. -/
theorem c3_witness :
    fingerprint ("CIabcde".data) <+: (fingerprint ("CIabcde".data) ++ "Fetching".data).take 140 :=
  (c3_amended_fingerprinted ("CIabcde".data) ("Fetching".data) (by decide) (by decide)).2

set_option maxRecDepth 4000 in
/-- C4 counterexample: the claim says every description written by
`setPullRequestStatus` equals the fingerprinted input truncated to at
most 140 characters, but the first app.ts variant
(src/app.ts lines 68-75) never truncates: a 140-character input is sent
as a 150-character description (10-character fingerprint included), not
as its 140-character truncation, so the remote service's length ceiling
is exceeded and the write is rejected rather than truncated. -/
theorem c4_counterexample :
    (appV1SentDescription ("CIabcde".data) (List.replicate 140 'x')).map List.length =
      some 150 ∧
    appV1SentDescription ("CIabcde".data) (List.replicate 140 'x') ≠
      some ((fingerprint ("CIabcde".data) ++ List.replicate 140 'x').take 140) := by
  constructor
  · decide
  · decide

/-- C4 amended: for every nonempty input description,
`GitHubCiClient.setPullRequestStatus` (src/github.ts lines 63-70) writes
the fingerprint-prefixed description deterministically truncated to at
most 140 characters — the write itself never fails on length — and a
subsequent `getJobStatus` read returns exactly that truncated value. -/
theorem c4_amended_truncation_roundtrip (jobUid ciIdentifier : Str) (store : StatusStore)
    (state : CIState) (description : Str) (url : Option Str) (hd : description ≠ []) :
    getJobStatusModel
        (setPullRequestStatusModel jobUid ciIdentifier store state description url)
        ciIdentifier =
      some ⟨state, some ((fingerprint jobUid ++ description).take 140), url⟩ ∧
    ((fingerprint jobUid ++ description).take 140).length ≤ 140 := by
  constructor
  · simp [getJobStatusModel, setPullRequestStatusModel, sentDescription, hd]
  · simp [List.length_take]

/-- C4 witness: round trip for worker uid `CIabcde` and a 140-character
description, sent value read back and within the ceiling. -/
theorem c4_witness :
    ((fingerprint ("CIabcde".data) ++ List.replicate 140 'x').take 140).length ≤ 140 :=
  (c4_amended_truncation_roundtrip ("CIabcde".data) ("linux-x64".data) (fun _ => none)
    CIState.pending (List.replicate 140 'x') none (by decide)).2

/-- Case lemma: classification on a cache miss reduces to the
status-based classification. -/
theorem classificationOf_none (known : KnownPRs) (pr : PullRequest) (st : Option Status)
    (now : Nat) (hk : known pr.number = none) :
    classificationOf known pr st now = classifyByStatus st now := by
  unfold classificationOf
  rw [hk]

/-- Case lemma: classification with a cached entry first compares
`headID`. -/
theorem classificationOf_some (known : KnownPRs) (pr : PullRequest) (st : Option Status)
    (now : Nat) (cached : PullRequest) (hk : known pr.number = some cached) :
    classificationOf known pr st now =
      if cached.headID = pr.headID then Classification.skipKnown
      else classifyByStatus st now := by
  unfold classificationOf
  rw [hk]

/-- Case lemma: no cache entry means no cache hit. -/
theorem cacheHit_none (known : KnownPRs) (pr : PullRequest) (hk : known pr.number = none) :
    cacheHit known pr = false := by
  unfold cacheHit
  rw [hk]

/-- Case lemma: a cache entry hits iff its `headID` matches. -/
theorem cacheHit_some (known : KnownPRs) (pr : PullRequest) (cached : PullRequest)
    (hk : known pr.number = some cached) :
    cacheHit known pr = decide (cached.headID = pr.headID) := by
  unfold cacheHit
  rw [hk]

/-- A success or failure status classifies as done. -/
theorem classifyByStatus_done (s : Status) (now : Nat)
    (hsf : s.state = CIState.success ∨ s.state = CIState.failure) :
    classifyByStatus (some s) now = Classification.done := by
  simp only [classifyByStatus]
  rcases hsf with h | h <;> rw [h]

/-- On a cache miss the status-based part of the part_002 classifier
decides exactly as the claimed table. -/
theorem decisionOf_classifyByStatus (st : Option Status) (now : Nat) :
    decisionOf (classifyByStatus st now) = specTableDecision false st now := by
  cases st with
  | none => rfl
  | some s =>
    obtain ⟨su, ss, sd, surl⟩ := s
    cases ss with
    | success => rfl
    | pending =>
      by_cases hlt : now - su < ciStatusTimeoutMs
      · simp [classifyByStatus, specTableDecision, hlt, decisionOf]
      · simp [classifyByStatus, specTableDecision, hlt, decisionOf]
    | failure => rfl

/-- C1 counterexample: the claim asserts the section-4.1 mapping
(success or failure → skip) for the classifiers it cites, but the
classifier of the first app.ts variant (src/app.ts lines 183-202) runs a
job for a SUCCESS status whose `updated_at` predates the pull request's
`updated_at` (its first branch `!status || status.updatedAt < pr.updatedAt`),
where the claimed table says skip. -/
theorem c1_counterexample :
    decisionV1 (classifyV1 (some stOldSuccess) prV1a 1000000) = Decision.run ∧
    specTableDecision false (some stOldSuccess) 1000000 = Decision.skip := by
  constructor
  · decide
  · decide

/-- C1 amended: for the part_002 classifier (src/unnamed/part_002 lines
237-258) the claim holds as stated — for every observed pull request,
every cache state and every remote status the classifier yields exactly
one decision in skip/run, the decision is exactly the section-4.1 table
(cache hit → skip; no status → run; success or failure → skip; pending
within the timeout → skip; pending at or past the timeout → run), and a
success/failure status on a cache miss also caches the snapshot.  (The
app.ts/part_001 classifier variant differs: it reruns success/failure
statuses older than the pull request's `updated_at`.) -/
theorem c1_classifier_total_and_matches_table (known : KnownPRs) (pr : PullRequest)
    (st : Option Status) (now : Nat) :
    ((classifierStep known pr st now).decision = Decision.skip ∨
      (classifierStep known pr st now).decision = Decision.run) ∧
    (classifierStep known pr st now).decision = specTableDecision (cacheHit known pr) st now ∧
    (cacheHit known pr = false →
      ∀ s : Status, st = some s → (s.state = CIState.success ∨ s.state = CIState.failure) →
        (classifierStep known pr st now).known pr.number = some pr) := by
  refine ⟨?_, ?_, ?_⟩
  · cases h : (classifierStep known pr st now).decision
    · exact Or.inl rfl
    · exact Or.inr rfl
  · show decisionOf (classificationOf known pr st now) = specTableDecision (cacheHit known pr) st now
    cases hk : known pr.number with
    | none =>
      rw [classificationOf_none known pr st now hk, cacheHit_none known pr hk]
      exact decisionOf_classifyByStatus st now
    | some cached =>
      rw [classificationOf_some known pr st now cached hk, cacheHit_some known pr cached hk]
      by_cases hh : cached.headID = pr.headID
      · rw [if_pos hh, decide_eq_true hh]
        rfl
      · rw [if_neg hh, decide_eq_false hh]
        exact decisionOf_classifyByStatus st now
  · intro hmiss s hst hsf
    subst hst
    have hcl : classificationOf known pr (some s) now = Classification.done := by
      cases hk : known pr.number with
      | none =>
        rw [classificationOf_none known pr (some s) now hk]
        exact classifyByStatus_done s now hsf
      | some cached =>
        rw [cacheHit_some known pr cached hk] at hmiss
        have hne : ¬ cached.headID = pr.headID := of_decide_eq_false hmiss
        rw [classificationOf_some known pr (some s) now cached hk, if_neg hne]
        exact classifyByStatus_done s now hsf
    show newKnown known pr (classificationOf known pr (some s) now) pr.number = some pr
    rw [hcl]
    show updateKnown known pr pr.number = some pr
    simp [updateKnown]

/-- C1 witness: empty cache, a failure status — the part_002 decision is
skip, matching the table, and the snapshot is cached. -/
theorem c1_witness :
    (classifierStep knownEmpty prEx (some ⟨0, CIState.failure, "", ""⟩) 7).known prEx.number =
      some prEx :=
  (c1_classifier_total_and_matches_table knownEmpty prEx
      (some ⟨0, CIState.failure, "", ""⟩) 7).2.2 rfl
    ⟨0, CIState.failure, "", ""⟩ rfl (Or.inr rfl)

/-- C8 counterexample: in the first app.ts variant main loop
(src/app.ts lines 176-203) the claim fails — at line 181
`const prs = await getPullRequests();` shadows the outer known-PR map,
so the seen-check at line 183 reads the freshly fetched ARRAY at index
`pr.number` and compares Date objects by identity.  For unchanged pull
request #42 (identical `updatedAt` time and `headID` across the two
cycles) the second cycle's seen-check misses, and with the remote status
still pending from 10 minutes ago the classifier starts a second job
instead of skipping via the cache. -/
theorem c8_counterexample :
    prV1a.number = prV1b.number ∧
    prV1a.updatedAt.time = prV1b.updatedAt.time ∧
    prV1a.headID = prV1b.headID ∧
    appV1SeenCheck [prV1b] prV1b = false ∧
    decisionV1 (classifyV1 (some stPending0) prV1b 600000) = Decision.run := by
  refine ⟨rfl, rfl, rfl, ?_, ?_⟩
  · decide
  · decide

/-- C8 amended: for the part_002 classifier (src/unnamed/part_002 line
237) the claim holds — if one cycle's classifier step for a pull request
decides run (and therefore caches the snapshot), then the next cycle's
step for an unchanged snapshot (same `number`, same `updatedAt`, same
`headID`) is a cache hit: it skips before even reading the remote
status, starts no second job, and leaves the cache unchanged.  (In the
first app.ts variant the known-PR cache is shadowed by the fetched array
and never hits.) -/
theorem c8_second_cycle_cache_skip (known : KnownPRs) (pr : PullRequest)
    (st1 : Option Status) (now1 : Nat)
    (hrun : (classifierStep known pr st1 now1).decision = Decision.run)
    (pr2 : PullRequest) (hn : pr2.number = pr.number) (hu : pr2.updatedAt = pr.updatedAt)
    (hh : pr2.headID = pr.headID) (st2 : Option Status) (now2 : Nat) :
    (classifierStep (classifierStep known pr st1 now1).known pr2 st2 now2).classification =
      Classification.skipKnown ∧
    (classifierStep (classifierStep known pr st1 now1).known pr2 st2 now2).decision =
      Decision.skip ∧
    (classifierStep (classifierStep known pr st1 now1).known pr2 st2 now2).known =
      (classifierStep known pr st1 now1).known := by
  have hupd : (classifierStep known pr st1 now1).known = updateKnown known pr := by
    show newKnown known pr (classificationOf known pr st1 now1) = _
    have hd : decisionOf (classificationOf known pr st1 now1) = Decision.run := hrun
    cases hc : classificationOf known pr st1 now1 <;> rw [hc] at hd <;>
      first
        | rfl
        | exact absurd hd (by simp [decisionOf])
  have hlook : (classifierStep known pr st1 now1).known pr2.number = some pr := by
    rw [hupd, hn]
    simp [updateKnown]
  have hcl : classificationOf (classifierStep known pr st1 now1).known pr2 st2 now2 =
      Classification.skipKnown := by
    rw [classificationOf_some _ _ _ _ pr hlook, if_pos hh.symm]
  refine ⟨hcl, ?_, ?_⟩
  · show decisionOf (classificationOf (classifierStep known pr st1 now1).known pr2 st2 now2) =
      Decision.skip
    rw [hcl]
    rfl
  · show newKnown (classifierStep known pr st1 now1).known pr2
      (classificationOf (classifierStep known pr st1 now1).known pr2 st2 now2) =
      (classifierStep known pr st1 now1).known
    rw [hcl]
    rfl

/-- C8 witness: empty cache, fresh pull request (run, cached), second
cycle with the identical snapshot skips via the cache. -/
theorem c8_witness :
    (classifierStep (classifierStep knownEmpty prEx none 0).known prEx
        (some stPending0) 600000).decision = Decision.skip :=
  (c8_second_cycle_cache_skip knownEmpty prEx none 0 (by decide) prEx rfl rfl rfl
    (some stPending0) 600000).2.1

/-- The flush invariant holds initially. -/
theorem flushInv_init : FlushInv flushInit := by
  refine ⟨rfl, ?_, rfl, ?_⟩
  · exact Nat.zero_le 1
  · intro h
    rfl

/-- The flush invariant is preserved by every transition. -/
theorem flushInv_step (s t : FlushState) (hinv : FlushInv s) (hstep : FlushStep s t) :
    FlushInv t := by
  obtain ⟨h1, h2, h3, h4⟩ := hinv
  cases hstep with
  | tickStart ht hm =>
    have hz : s.tickFlushes = 0 := by
      have hd : decide (0 < s.tickFlushes) = false := by rw [← h1]; exact hm
      have hlt := of_decide_eq_false hd
      omega
    have hp0 : s.finalPhase = 0 := by
      have hd : decide (s.finalPhase = 0) = true := by rw [← h3]; exact ht
      exact of_decide_eq_true hd
    refine ⟨?_, ?_, ?_, ?_⟩
    · show true = decide (0 < s.tickFlushes + 1)
      simp
    · show s.tickFlushes + 1 ≤ 1
      omega
    · exact h3
    · intro hp
      have hp2 : s.finalPhase = 2 := hp
      omega
  | tickSkip ht hm => exact ⟨h1, h2, h3, h4⟩
  | tickDone hf =>
    have h1' : s.tickFlushes = 1 := Nat.le_antisymm h2 hf
    refine ⟨?_, ?_, ?_, ?_⟩
    · show false = decide (0 < s.tickFlushes - 1)
      rw [h1']
      rfl
    · show s.tickFlushes - 1 ≤ 1
      omega
    · exact h3
    · intro hp
      show s.tickFlushes - 1 = 0
      omega
  | commandResolve hp =>
    refine ⟨h1, h2, ?_, ?_⟩
    · show false = decide ((1 : Nat) = 0)
      rfl
    · intro hc
      have hc2 : (1 : Nat) = 2 := hc
      omega
  | finalStart hp hm =>
    have hz : s.tickFlushes = 0 := by
      have hd : decide (0 < s.tickFlushes) = false := by rw [← h1]; exact hm
      have hlt := of_decide_eq_false hd
      omega
    refine ⟨h1, h2, ?_, ?_⟩
    · show s.timerActive = decide ((2 : Nat) = 0)
      rw [h3, hp]
      rfl
    · intro hc
      exact hz
  | finalDone hp =>
    refine ⟨h1, h2, ?_, ?_⟩
    · show s.timerActive = decide ((3 : Nat) = 0)
      rw [h3, hp]
      rfl
    · intro hc
      have hc2 : (3 : Nat) = 2 := hc
      omega

/-- Every reachable flush state satisfies the invariant. -/
theorem flushInv_reachable (s : FlushState) (h : FlushReachable s) : FlushInv s := by
  induction h with
  | init => exact flushInv_init
  | step hr hs ih => exact flushInv_step _ _ ih hs

/-- C6: flush serialization (src/unnamed/part_002 runJob lines 154-161).
In every reachable state of the flush machinery at most one
`sendFeedback` invocation is in flight; while the final flush runs no
timer flush is in flight (the `while (mutex) await delay(100)` drain
completes first); and no transition taken while the mutex flag is held
starts an additional flush — a timer tick arriving during a flush
performs no flush. -/
theorem c6_flush_serialized (s : FlushState) (h : FlushReachable s) :
    flushesInFlight s ≤ 1 ∧
    (s.finalPhase = 2 → s.tickFlushes = 0) ∧
    (∀ t : FlushState, s.mutex = true → FlushStep s t →
      flushesInFlight t ≤ flushesInFlight s) := by
  obtain ⟨h1, h2, h3, h4⟩ := flushInv_reachable s h
  refine ⟨?_, h4, ?_⟩
  · unfold flushesInFlight
    by_cases hp : s.finalPhase = 2
    · simp [hp, h4 hp]
    · simp [hp, h2]
  · intro t hmx hstep
    cases hstep with
    | tickStart ht hm => simp [hmx] at hm
    | tickSkip ht hm => exact Nat.le_refl _
    | tickDone hf =>
      show s.tickFlushes - 1 + (if s.finalPhase = 2 then 1 else 0) ≤
        s.tickFlushes + (if s.finalPhase = 2 then 1 else 0)
      omega
    | commandResolve hp =>
      show s.tickFlushes + (if (1 : Nat) = 2 then 1 else 0) ≤
        s.tickFlushes + (if s.finalPhase = 2 then 1 else 0)
      simp
    | finalStart hp hm => simp [hmx] at hm
    | finalDone hp =>
      show s.tickFlushes + (if (3 : Nat) = 2 then 1 else 0) ≤
        s.tickFlushes + (if s.finalPhase = 2 then 1 else 0)
      simp

/-- C6 witness: a reachable state with one timer flush in flight
respects the bound. -/
theorem c6_witness :
    flushesInFlight ⟨true, true, 1, 0⟩ ≤ 1 :=
  (c6_flush_serialized ⟨true, true, 1, 0⟩
    (FlushReachable.step FlushReachable.init
      (FlushStep.tickStart flushInit rfl rfl))).1

/-- Feedback-timer firings only produce log appends. -/
theorem checkOwnsFalse_notMem_tickFold (ticks : List Tick) :
    ∀ n : Nat, Event.checkOwns false ∉ (tickFold ticks n).1 := by
  induction ticks with
  | nil => intro n; simp [tickFold]
  | cons t ts ih =>
    intro n
    by_cases h : t.appendOk <;> simp [tickFold, h, ih]

/-- No failed ownership check is recorded by the blob creation. -/
theorem cf_not_ev1 : Event.checkOwns false ∉ ev1 := by decide

/-- No failed ownership check is recorded up to the Fetching write. -/
theorem cf_not_ev2 : Event.checkOwns false ∉ ev2 := by decide

/-- No failed ownership check is recorded up to the first passed check. -/
theorem cf_not_ev3 : Event.checkOwns false ∉ ev3 := by decide

/-- No failed ownership check is recorded up to the Running write. -/
theorem cf_not_ev4 (env : Env2) : Event.checkOwns false ∉ ev4 env := by
  simp [ev4, cf_not_ev3]

/-- No failed ownership check is recorded by the timer flushes. -/
theorem cf_not_ev5 (env : Env2) : Event.checkOwns false ∉ ev5 env := by
  simp [ev5, cf_not_ev4, checkOwnsFalse_notMem_tickFold]

/-- No failed ownership check is recorded by the final flush. -/
theorem cf_not_ev6 (env : Env2) : Event.checkOwns false ∉ ev6 env := by
  unfold ev6
  by_cases hf : env.finalTick.appendOk <;> simp [hf, cf_not_ev5]

/-- No failed ownership check is recorded up to the second passed check. -/
theorem cf_not_ev7 (env : Env2) : Event.checkOwns false ∉ ev7 env := by
  simp [ev7, cf_not_ev6]

/-- The pushFinal append is never a failed ownership check. -/
theorem cf_not_pushFinal (env : Env2) (b : Bool) :
    Event.checkOwns false ∉ pushFinalEvs env b := by
  unfold pushFinalEvs
  by_cases hp : env.pushFinalOk <;> simp [hp]

/-- In a list of the form `l₀ ++ [e]` with `e` not occurring in `l₀`,
any decomposition around `e` has an empty tail. -/
theorem append_single_mid {α : Type} (l₀ : List α) (e : α) :
    ∀ pre post : List α, e ∉ l₀ → l₀ ++ [e] = pre ++ e :: post → post = [] := by
  induction l₀ with
  | nil =>
    intro pre post he h
    rw [List.nil_append] at h
    cases pre with
    | nil =>
      rw [List.nil_append] at h
      injection h with h1 h2
      exact h2.symm
    | cons a pre2 =>
      rw [List.cons_append] at h
      injection h with h1 h2
      exact absurd h2.symm (by simp)
  | cons b l ih =>
    intro pre post he h
    simp only [List.mem_cons, not_or] at he
    obtain ⟨he1, he2⟩ := he
    rw [List.cons_append] at h
    cases pre with
    | nil =>
      rw [List.nil_append] at h
      injection h with h1 h2
      exact absurd h1.symm he1
    | cons a pre2 =>
      rw [List.cons_append] at h
      injection h with h1 h2
      exact ih pre2 post he2 h2

/-- Every terminal branch of the part_002 runJob body either ends with a
failed ownership check as its very last event, or contains no failed
ownership check at all. -/
theorem runJob2Body_cf_shape (env : Env2) :
    runJob2Body env = (ev2 ++ [Event.checkOwns false], Except.ok ()) ∨
    runJob2Body env = (ev6 env ++ [Event.checkOwns false], Except.ok ()) ∨
    Event.checkOwns false ∉ (runJob2Body env).1 := by
  unfold runJob2Body
  repeat' split
  all_goals
    first
      | exact Or.inl rfl
      | exact Or.inr (Or.inl rfl)
      | (right; right;
         simp [cf_not_ev1, cf_not_ev2, cf_not_ev3, cf_not_ev4, cf_not_ev5, cf_not_ev6,
           cf_not_ev7, cf_not_pushFinal, checkOwnsFalse_notMem_tickFold])

/-- If the body completes or aborts without throwing, the catch wrapper
adds nothing. -/
theorem runJob2Full_of_ok (env : Env2) (l : List Event)
    (h : runJob2Body env = (l, Except.ok ())) :
    runJob2Full env = (l, Except.ok ()) := by
  unfold runJob2Full
  rw [h]

/-- If the body throws, the catch wrapper attempts exactly the one stall
write and returns normally. -/
theorem runJob2Full_of_error (env : Env2) (l : List Event) (e : Err)
    (h : runJob2Body env = (l, Except.error e)) :
    runJob2Full env =
      (l ++ (if env.stallOk then
          [Event.statusWrite CIState.pending ("Stall. Job error: " ++ e) none] else []),
       Except.ok ()) := by
  unfold runJob2Full
  rw [h]

/-- C2: fencing monotonicity in part_002 runJob (src/unnamed/part_002
lines 128-130 and 163-165) — whenever a trace of the full job (catch
block included) records an `isLastStatusOurs` check that returned false,
nothing at all follows it: the job returns immediately, so no JobStatus
write and no Log Sink append happens for the remainder of that job. -/
theorem c2_no_write_after_owns_false (env : Env2) (pre post : List Event)
    (h : (runJob2Full env).1 = pre ++ Event.checkOwns false :: post) :
    post = [] := by
  rcases runJob2Body_cf_shape env with h1 | h1 | h1
  · rw [runJob2Full_of_ok env _ h1] at h
    have h' : ev2 ++ [Event.checkOwns false] = pre ++ Event.checkOwns false :: post := h
    exact append_single_mid ev2 (Event.checkOwns false) pre post cf_not_ev2 h'
  · rw [runJob2Full_of_ok env _ h1] at h
    have h' : ev6 env ++ [Event.checkOwns false] = pre ++ Event.checkOwns false :: post := h
    exact append_single_mid (ev6 env) (Event.checkOwns false) pre post (cf_not_ev6 env) h'
  · rcases hb : runJob2Body env with ⟨l, r⟩
    rw [hb] at h1
    have h1' : Event.checkOwns false ∉ l := h1
    cases r with
    | ok u =>
      cases u
      rw [runJob2Full_of_ok env _ hb] at h
      have h' : l = pre ++ Event.checkOwns false :: post := h
      have hm : Event.checkOwns false ∈ l := by rw [h']; simp
      exact absurd hm h1'
    | error e =>
      rw [runJob2Full_of_error env _ _ hb] at h
      have h' : l ++ (if env.stallOk then
          [Event.statusWrite CIState.pending ("Stall. Job error: " ++ e) none] else []) =
          pre ++ Event.checkOwns false :: post := h
      have hm : Event.checkOwns false ∈
          l ++ (if env.stallOk then
            [Event.statusWrite CIState.pending ("Stall. Job error: " ++ e) none] else []) := by
        rw [h']; simp
      rcases List.mem_append.1 hm with hml | hmi
      · exact absurd hml h1'
      · by_cases hs : env.stallOk
        · rw [if_pos hs] at hmi
          simp at hmi
        · rw [if_neg hs] at hmi
          simp at hmi

/-- C2 witness: a run whose first ownership check returns false ends at
exactly that event; applying the theorem to its trace confirms the empty
remainder. -/
theorem c2_witness :
    (runJob2Full envOwnsFalse).1 = ev2 ++ [Event.checkOwns false] ∧ ([] : List Event) = [] :=
  ⟨by decide, c2_no_write_after_owns_false envOwnsFalse ev2 [] (by decide)⟩

/-- C5 counterexample: the claim says a Job Executor converts every
internal exception into a best-effort PENDING stall write and returns
normally, but the first app.ts variant catch block (src/app.ts lines
162-167) writes a FAILURE status and rethrows: on a failing test command
the job ends with `Except.error` (the `throw e`), its last write being a
failure status, not a pending stall — the error propagates into the poll
loop. -/
theorem c5_counterexample :
    (runJobV1Full envV1Fail).1 =
      w6 ++ [Event.statusWrite CIState.failure
        "Error: Command failed: npm install && npm test" none] ∧
    (runJobV1Full envV1Fail).2 =
      Except.error "Error: Command failed: npm install && npm test" := by
  constructor
  · decide
  · rfl

/-- C5 amended: for the part_002 executor (src/unnamed/part_002 lines
184-191) the claim holds — `runJob` never rethrows (its result is
`Except.ok` for every environment), and whenever the body throws `e` the
only event appended after the body's events is one best-effort
pending/"Stall. Job error: " + e status write, omitted exactly when that
write itself fails (the failure is swallowed).  (The app.ts lines
162-167 variant instead writes a failure status and rethrows.) -/
theorem c5_amended_stall_and_no_rethrow :
    (∀ env : Env2, (runJob2Full env).2 = Except.ok ()) ∧
    (∀ (env : Env2) (e : Err), (runJob2Body env).2 = Except.error e →
      (runJob2Full env).1 =
        (runJob2Body env).1 ++
          (if env.stallOk then
            [Event.statusWrite CIState.pending ("Stall. Job error: " ++ e) none] else [])) := by
  constructor
  · intro env
    rcases hb : runJob2Body env with ⟨l, r⟩
    cases r with
    | ok u =>
      cases u
      rw [runJob2Full_of_ok env _ hb]
    | error e =>
      rw [runJob2Full_of_error env _ _ hb]
  · intro env e he
    rcases hb : runJob2Body env with ⟨l, r⟩
    rw [hb] at he
    have he' : r = Except.error e := he
    subst he'
    rw [runJob2Full_of_error env _ _ hb]

/-- C5 witness: a job whose very first call throws "boom" produces
exactly the one pending stall write. -/
theorem c5_witness :
    (runJob2Full envMkdirBoom).1 =
      [Event.statusWrite CIState.pending "Stall. Job error: boom" none] := by
  rw [c5_amended_stall_and_no_rethrow.2 envMkdirBoom "boom" rfl]
  decide

/-- C7 counterexample: the claim says EVERY Job Executor run that writes
success immediately re-checks `wasUpdated` afterwards and downgrades on
a change, but the part_002 executor (src/unnamed/part_002 lines 179-183)
ends at the success write: this complete successful run performs no
`wasUpdated` check at any point and writes nothing after the success
status, so no downgrade can ever happen there. -/
theorem c7_counterexample :
    (runJob2Full envC7).1 =
      [Event.logCreate,
       Event.statusWrite CIState.pending "Fetching" none,
       Event.checkOwns true,
       Event.statusWrite CIState.pending "Running test job" (some "http://log?autorefresh"),
       Event.checkOwns true,
       Event.logAppend (pushFinalText true),
       Event.statusWrite CIState.success "Success (git took 5s, tests took 60s)"
         (some "http://log")] ∧
    containsCheckUpdated (runJob2Full envC7).1 = false ∧
    (runJob2Full envC7).1.getLast? =
      some (Event.statusWrite CIState.success "Success (git took 5s, tests took 60s)"
        (some "http://log")) := by
  refine ⟨?_, ?_, ?_⟩ <;> decide

/-- C7 amended: in the first app.ts variant executor (src/app.ts lines
160-161; src/unnamed/part_001 lines 116-117 are identical) the claim
holds — EVERY run that reaches the success write immediately re-checks
`wasUpdated`: whichever boolean the recheck returns, the event right
after the success write is that recheck.  When the pull request is
unchanged the job ends right after the recheck with no further write;
when it changed and the downgrade write succeeds, exactly one pending
"Stall. Just set status of an updated PR." write follows and the job
ends; when it changed but the downgrade write itself throws, only the
catch block's failure write and rethrow follow the recheck.  (The
part_002 executor never performs this recheck.) -/
theorem c7_amended_downgrade_after_success (env : EnvV1)
    (h1 : env.mkdirR = none) (h2 : env.fetchStatusR = none) (h3 : env.cloneR = none)
    (h4 : env.checkoutR = none) (h5 : env.mergeR = none) (h6 : env.upd1R = Except.ok false)
    (h7 : env.owns1R = Except.ok true) (h8 : env.runStatusR = none)
    (h9 : env.commandErr = none) (h10 : env.upd2R = Except.ok false)
    (h11 : env.owns2R = Except.ok true) (h12 : env.succStatusR = none)
    (b : Bool) (h13 : env.upd3R = Except.ok b) :
    (b = false →
      runJobV1Full env =
        (w6 ++ [Event.statusWrite CIState.success
                  (successDescOf env.now1 env.now2 env.now3) none,
                Event.checkUpdated false],
         Except.ok ())) ∧
    (b = true → env.stallStatusR = none →
      runJobV1Full env =
        (w6 ++ [Event.statusWrite CIState.success
                  (successDescOf env.now1 env.now2 env.now3) none,
                Event.checkUpdated true,
                Event.statusWrite CIState.pending "Stall. Just set status of an updated PR." none],
         Except.ok ())) ∧
    (∀ e : Err, b = true → env.stallStatusR = some e →
      runJobV1Full env =
        (w6 ++ [Event.statusWrite CIState.success
                  (successDescOf env.now1 env.now2 env.now3) none,
                Event.checkUpdated true] ++
          (if env.failStatusOk then
            [Event.statusWrite CIState.failure (strTake e 1000) none] else []),
         Except.error e)) := by
  refine ⟨?_, ?_, ?_⟩
  · intro hb
    subst hb
    simp only [runJobV1Full, runJobV1Body, h1, h2, h3, h4, h5, h6, h7, h8, h9, h10, h11,
      h12, h13]
  · intro hb hs
    subst hb
    simp only [runJobV1Full, runJobV1Body, h1, h2, h3, h4, h5, h6, h7, h8, h9, h10, h11,
      h12, h13, hs]
  · intro e hb hs
    subst hb
    simp only [runJobV1Full, runJobV1Body, h1, h2, h3, h4, h5, h6, h7, h8, h9, h10, h11,
      h12, h13, hs]

/-- C7 witness: two concrete successful app.ts-variant runs — one whose
final update check reports no change (the job ends right after the
recheck), one whose check reports a change (the pending downgrade write
follows). -/
theorem c7_witness :
    runJobV1Full envV1NoChange =
      (w6 ++ [Event.statusWrite CIState.success
          (successDescOf envV1NoChange.now1 envV1NoChange.now2 envV1NoChange.now3) none,
              Event.checkUpdated false],
       Except.ok ()) ∧
    runJobV1Full envV1Stall =
      (w6 ++ [Event.statusWrite CIState.success
          (successDescOf envV1Stall.now1 envV1Stall.now2 envV1Stall.now3) none,
              Event.checkUpdated true,
              Event.statusWrite CIState.pending "Stall. Just set status of an updated PR." none],
       Except.ok ()) :=
  ⟨(c7_amended_downgrade_after_success envV1NoChange rfl rfl rfl rfl rfl rfl rfl rfl rfl rfl
      rfl rfl false rfl).1 rfl,
   (c7_amended_downgrade_after_success envV1Stall rfl rfl rfl rfl rfl rfl rfl rfl rfl rfl
      rfl rfl true rfl).2.1 rfl rfl⟩
